import Mathlib

/-!
Verification of the dictation-mode grammar formatter.

This file gives a shallow embedding of the two source modules of the
repository:

- text_dictation_formatting.py : word flags, state flags, the word parser
  registries, and the WordFormatter (apply_formatting / update_state /
  format_dictation);
- _dictation_mode.py : the per-window history stacks of the
  DictationModeGrammar (frames, push, scratch, reset, window switching).

Python strings are modelled as Lean String values; the handful of Python
string methods the source uses (join, replace, split, capitalize, upper,
lower, startswith, endswith, slicing) are translated explicitly below, on
the underlying character lists, so that everything evaluates. Case
conversion is modelled per character with Char.toUpper / Char.toLower,
which matches Python for the ASCII inputs this grammar handles.
-/

/-- Named character constants, used so that character literals appear in a
uniform position throughout the file. -/
def chSpace : Char := (' ')

def chDot : Char := ('.')

def chHyphen : Char := ('-')

/-- Container of the per-word formatting flags of WordFlags in
text_dictation_formatting.py. Every flag defaults to false; a Python
constructor call WordFlags(a, b) corresponds to a record setting those
fields to true. -/
structure WordFlags where
  no_space_before : Bool := false
  no_space_after : Bool := false
  two_spaces_after : Bool := false
  no_space_mode : Bool := false
  reset_no_space : Bool := false
  no_space_reset : Bool := false
  spacebar : Bool := false
  no_space_between : Bool := false
  newline_after : Bool := false
  two_newlines_after : Bool := false
  cap_next : Bool := false
  cap_next_force : Bool := false
  lower_next : Bool := false
  upper_next : Bool := false
  cap_mode : Bool := false
  lower_mode : Bool := false
  upper_mode : Bool := false
  reset_cap : Bool := false
  no_cap_reset : Bool := false
  no_title_cap : Bool := false
  no_format : Bool := false
  not_after_period : Bool := false
deriving DecidableEq, Repr

/-- Container of the inter-word formatting state of StateFlags in
text_dictation_formatting.py. -/
structure StateFlags where
  no_space_before : Bool := false
  two_spaces_before : Bool := false
  no_space_between : Bool := false
  no_space_mode : Bool := false
  cap_next : Bool := false
  cap_next_force : Bool := false
  lower_next : Bool := false
  upper_next : Bool := false
  cap_mode : Bool := false
  lower_mode : Bool := false
  upper_mode : Bool := false
  prev_ended_in_period : Bool := false
deriving DecidableEq, Repr

/-- A parsed word: written form, spoken form and flags, as in class Word. -/
structure Word where
  written : String
  spoken : String
  flags : WordFlags
deriving DecidableEq, Repr

/-- Python written.endswith of a period, on the character list. -/
def endsWithDot (w : String) : Bool := w.data.getLast? == some chDot

/-- Python written.startswith of a period, on the character list. -/
def startsWithDot (w : String) : Bool := w.data.head? == some chDot

/-- Python str.capitalize, used by WordFormatter.capitalize_first: the
first character is uppercased and every remaining character is
lowercased. -/
def pyCapitalizeList : List Char → List Char
  | [] => []
  | c :: cs => c.toUpper :: cs.map Char.toLower

/-- WordFormatter.capitalize_first: return written.capitalize(). -/
def capitalizeFirst (w : String) : String := String.mk (pyCapitalizeList w.data)

/-- Walker for WordFormatter.capitalize_all, which uppercases every
non-space character standing at the start of the string or right after
whitespace; the boolean records whether the previous position was such a
boundary. -/
def capAllAux : Bool → List Char → List Char
  | _, [] => []
  | boundary, c :: cs =>
    if c.isWhitespace then c :: capAllAux true cs
    else (if boundary then c.toUpper else c) :: capAllAux false cs

/-- WordFormatter.capitalize_all via the regex over boundaries. -/
def capitalizeAll (w : String) : String := String.mk (capAllAux true w.data)

/-- Walker for WordFormatter.upper_first: written.split at the first
space character, uppercase the first part, keep the remainder verbatim. -/
def upperFirstAux : List Char → List Char
  | [] => []
  | c :: cs => if c == chSpace then c :: cs else c.toUpper :: upperFirstAux cs

/-- WordFormatter.upper_first. -/
def upperFirst (w : String) : String := String.mk (upperFirstAux w.data)

/-- Walker for WordFormatter.lower_first, dual to upperFirstAux. -/
def lowerFirstAux : List Char → List Char
  | [] => []
  | c :: cs => if c == chSpace then c :: cs else c.toLower :: lowerFirstAux cs

/-- WordFormatter.lower_first. -/
def lowerFirst (w : String) : String := String.mk (lowerFirstAux w.data)

/-- WordFormatter.upper_all: written.upper(). -/
def upperAll (w : String) : String := String.mk (w.data.map Char.toUpper)

/-- WordFormatter.lower_all: written.lower(). -/
def lowerAll (w : String) : String := String.mk (w.data.map Char.toLower)

/-- Boolean test that the first list leads the second, used by the
replacement scanner below. -/
def leadsList : List Char → List Char → Bool
  | [], _ => true
  | _ :: _, [] => false
  | p :: ps, c :: cs => p == c && leadsList ps cs

/-- Flags of the period entry of the property map, shared with its
full-stop alias exactly as the source aliases the dictionary entry. -/
def wfPeriod : WordFlags :=
  { two_spaces_after := true, cap_next := true, no_space_before := true,
    not_after_period := true }

/-- Flags of the new-line entry, shared with its enter alias. -/
def wfNewLine : WordFlags :=
  { no_format := true, no_space_after := true, no_cap_reset := true,
    newline_after := true }

/-- WordParserTextInput.property_map as an association list in the
insertion order of the source dictionary literal, with the two alias
entries full-stop and enter appended afterwards, as the source does. -/
def propertyMap : List (String × WordFlags) :=
  [ (("new-line"), wfNewLine),
    (("new-paragraph"), { no_format := true, no_space_after := true, cap_next := true, two_newlines_after := true }),
    (("no-space"), { no_format := true, no_cap_reset := true, no_space_after := true }),
    (("no-space-on"), { no_format := true, no_cap_reset := true, no_space_mode := true }),
    (("no-space-off"), { no_format := true, no_cap_reset := true, reset_no_space := true }),
    (("cap"), { no_format := true, no_space_reset := true, cap_next_force := true }),
    (("caps-on"), { no_format := true, no_space_reset := true, reset_cap := true, cap_mode := true }),
    (("caps-off"), { no_format := true, no_space_reset := true, reset_cap := true }),
    (("all-caps"), { no_format := true, no_space_reset := true, upper_next := true }),
    (("all-caps-on"), { no_format := true, no_space_reset := true, reset_cap := true, upper_mode := true }),
    (("all-caps-off"), { no_format := true, no_space_reset := true, reset_cap := true }),
    (("no-caps"), { no_format := true, no_space_reset := true, lower_next := true }),
    (("no-caps-on"), { no_format := true, no_space_reset := true, reset_cap := true, lower_mode := true }),
    (("no-caps-off"), { no_format := true, no_space_reset := true, reset_cap := true }),
    (("space-bar"), { no_format := true, spacebar := true, no_space_after := true, no_cap_reset := true, no_space_before := true }),
    (("spelling-cap"), { no_format := true, no_space_reset := true, cap_next_force := true }),
    (("letter"), { no_space_after := true }),
    (("uppercase-letter"), { no_space_after := true }),
    (("numeral"), { no_space_after := true }),
    (("period"), wfPeriod),
    (("question-mark"), { two_spaces_after := true, cap_next := true, no_space_before := true }),
    (("exclamation-mark"), { two_spaces_after := true, cap_next := true, no_space_before := true }),
    (("point"), { no_space_after := true, no_space_between := true, no_space_before := true }),
    (("dot"), { no_space_after := true, no_space_between := true, no_space_before := true }),
    (("ellipsis"), { no_space_before := true, not_after_period := true, cap_next := true }),
    (("comma"), { no_space_before := true }),
    (("hyphen"), { no_space_before := true, no_space_after := true }),
    (("dash"), { no_space_before := true, no_space_after := true }),
    (("at-sign"), { no_space_before := true, no_space_after := true }),
    (("colon"), { no_space_before := true }),
    (("semicolon"), { no_space_before := true }),
    (("apostrophe-s"), { no_space_before := true }),
    (("apostrophe-ess"), { no_space_before := true }),
    (("left-*"), { no_cap_reset := true, no_space_after := true }),
    (("right-*"), { no_cap_reset := true, no_space_before := true, no_space_reset := true }),
    (("open-paren"), { no_space_after := true }),
    (("close-paren"), { no_space_before := true }),
    (("slash"), { no_space_after := true, no_space_before := true }),
    (("full-stop"), wfPeriod),
    (("enter"), wfNewLine) ]

/-- WordParserTextInput.translation_table as an association list in the
insertion order of the source dictionary literal. -/
def translationTable : List (String × String) :=
  [ (("new-line"), ("")),
    (("new-paragraph"), ("")),
    (("enter"), ("")),
    (("no-space"), ("")),
    (("no-space-on"), ("")),
    (("no-space-off"), ("")),
    (("cap"), ("")),
    (("caps-on"), ("")),
    (("caps-off"), ("")),
    (("all-caps"), ("")),
    (("all-caps-on"), ("")),
    (("all-caps-off"), ("")),
    (("no-caps"), ("")),
    (("no-caps-on"), ("")),
    (("no-caps-off"), ("")),
    (("spelling-cap"), ("")),
    (("space-bar"), (" ")),
    (("tab"), ("\t")),
    (("period"), (".")),
    (("question-mark"), ("?")),
    (("exclamation-mark"), ("!")),
    (("full-stop"), (".")),
    (("point"), (".")),
    (("dot"), (".")),
    (("ellipsis"), ("…")),
    (("comma"), (",")),
    (("hyphen"), ("-")),
    (("dash"), ("-")),
    (("em-dash"), ("—")),
    (("at-sign"), ("@")),
    (("colon"), (":")),
    (("semicolon"), (";")),
    (("apostrophe-ess"), ("\x27s")),
    (("apostrophe-s"), ("\x27s")),
    (("open-paren"), ("(")),
    (("close-paren"), (")")),
    (("slash"), ("/")),
    (("forward-slash"), ("/")),
    (("back-slash"), ("\\")),
    (("backslash"), ("\\")) ]

/-- Python property.startswith, as a character-list test. -/
def startsWithStr (pre s : String) : Bool := leadsList pre.data s.data

/-- WordParserTextInput.create_word_flags: exact registry lookup, then the
left- and right- wildcard families, then empty flags. The Python clone
call copies the flag set and is the identity in this pure model. -/
def createWordFlags (property : String) : WordFlags :=
  match propertyMap.lookup property with
  | some flags => flags
  | none =>
    if startsWithStr ("left-") property then
      (propertyMap.lookup (("left-*"))).getD {}
    else if startsWithStr ("right-") property then
      (propertyMap.lookup (("right-*"))).getD {}
    else {}

/-- WordParserTextInput.parse_input: the written form is the translation
table entry when present, else the token itself; the spoken form is the
token; the flags come from createWordFlags. -/
def parseInput (wordStr : String) : Word :=
  { written := (translationTable.lookup wordStr).getD wordStr,
    spoken := wordStr,
    flags := createWordFlags wordStr }

/-- The Determine-prefix block of WordFormatter.apply_formatting: the
spacing emitted before the written form, as a first-match chain. The
tsap flag is the two_spaces_after_period option of the formatter. -/
def prePart (tsap : Bool) (state : StateFlags) (wf : WordFlags) : String :=
  if wf.no_format then ("")
  else if state.no_space_mode then ("")
  else if wf.no_space_before then ("")
  else if state.no_space_before then ("")
  else if state.no_space_between && wf.no_space_between then ("")
  else if state.two_spaces_before then (if tsap then ("  ") else (" "))
  else (" ")

/-- The Determine-formatted-written-form block of
WordFormatter.apply_formatting: case selection on the written form, as a
first-match chain over the previous state. -/
def applyCase (state : StateFlags) (word : Word) : String :=
  if word.flags.no_format then word.written
  else if state.cap_mode && !word.flags.no_title_cap then capitalizeAll word.written
  else if state.upper_mode then upperAll word.written
  else if state.lower_mode then lowerAll word.written
  else if state.cap_next then capitalizeFirst word.written
  else if state.cap_next_force then capitalizeFirst word.written
  else if state.upper_next then upperFirst word.written
  else if state.lower_next then lowerFirst word.written
  else word.written

/-- The Remove-first-period block of WordFormatter.apply_formatting:
after a word that ended in a period, a not_after_period word starting
with a period loses that leading period. -/
def applyElision (state : StateFlags) (wf : WordFlags) (written : String) : String :=
  if state.prev_ended_in_period && wf.not_after_period && startsWithDot written
  then String.mk (written.data.drop 1)
  else written

/-- The cased and elided written form of a word under the previous state:
the text of the word as it is actually emitted, between prefix and
suffix. -/
def renderedWritten (state : StateFlags) (word : Word) : String :=
  applyElision state word.flags (applyCase state word)

/-- The Determine-suffix block of WordFormatter.apply_formatting. -/
def sufPart (wf : WordFlags) : String :=
  if wf.newline_after then ("\n")
  else if wf.two_newlines_after then ("\n\n")
  else if wf.spacebar then (" ")
  else ("")

/-- WordFormatter.apply_formatting: prefix, cased and elided written
form, and suffix, concatenated. -/
def applyFormatting (tsap : Bool) (state : StateFlags) (word : Word) : String :=
  prePart tsap state word.flags ++ renderedWritten state word ++ sufPart word.flags

/-- WordFormatter.update_state: the pure transition from the previous
inter-word state and the current word to the next state. The final field
records whether this word ended in a period, computed by the source from
the raw written form of the word object. -/
def updateState (prev : StateFlags) (wordObject : Word) : StateFlags :=
  let word := wordObject.flags
  { cap_next_force := word.cap_next_force || (word.no_cap_reset && prev.cap_next_force),
    cap_next := word.cap_next || word.cap_mode || (word.no_cap_reset && prev.cap_next),
    upper_next := word.upper_next || (word.no_cap_reset && prev.upper_next),
    lower_next := word.lower_next || (word.no_cap_reset && prev.lower_next),
    cap_mode := word.cap_mode || (prev.cap_mode && !word.reset_cap),
    upper_mode := word.upper_mode || (prev.upper_mode && !word.reset_cap),
    lower_mode := word.lower_mode || (prev.lower_mode && !word.reset_cap),
    no_space_before := word.no_space_after || (prev.no_space_before && word.no_space_reset && word.no_format),
    two_spaces_before := word.two_spaces_after || (prev.two_spaces_before && word.no_space_reset && word.no_format),
    no_space_between := word.no_space_between,
    no_space_mode := word.no_space_mode || (prev.no_space_mode && !word.reset_no_space),
    prev_ended_in_period := endsWithDot wordObject.written }

/-- Python str.replace scanning left to right and replacing each
non-overlapping occurrence of a nonempty pattern; the fuel argument is
the length of the scanned list, which bounds the recursion. -/
def replaceAux (pat rep : List Char) : Nat → List Char → List Char
  | _, [] => []
  | 0, s => s
  | Nat.succ fuel, c :: cs =>
    if !pat.isEmpty && leadsList pat (c :: cs) then
      rep ++ replaceAux pat rep fuel (List.drop pat.length (c :: cs))
    else c :: replaceAux pat rep fuel cs

/-- Python s.replace(pat, rep) for the nonempty patterns used here. -/
def pyReplaceStr (s pat rep : String) : String :=
  String.mk (replaceAux pat.data rep.data s.data.length s.data)

/-- The spaced surface form of a hyphenated key: key.replace of hyphens
by spaces, as in format_dictation. -/
def spacedForm (key : String) : String :=
  pyReplaceStr key (String.mk ([chHyphen])) (String.mk ([chSpace]))

/-- The hyphenated keys of the translation table, in table order: the
keys the pre-processing loop of format_dictation iterates over. -/
def hyphenKeys : List String :=
  (translationTable.map Prod.fst).filter (fun k => k.data.contains chHyphen)

/-- Python single-space join of a token list. -/
def joinWithSpace : List String → String
  | [] => ("")
  | [w] => w
  | w :: ws => w ++ String.mk ([chSpace]) ++ joinWithSpace ws

/-- Walker for Python str.split with no arguments: split on whitespace
runs and drop empty pieces; the fuel argument is the list length. -/
def splitWsAux : Nat → List Char → List (List Char)
  | 0, _ => []
  | _, [] => []
  | Nat.succ fuel, c :: cs =>
    if c.isWhitespace then splitWsAux fuel cs
    else (c :: cs.takeWhile (fun d => !d.isWhitespace))
      :: splitWsAux fuel (cs.dropWhile (fun d => !d.isWhitespace))

/-- Python input_str.split() on whitespace. -/
def splitWs (s : String) : List String :=
  (splitWsAux s.data.length s.data).map (fun l => String.mk l)

/-- The pre-processing step of WordFormatter.format_dictation: join the
raw tokens with single spaces, then for every hyphenated key of the
translation table replace its spaced surface form by the key itself in
the joined string, then split back into tokens. -/
def mergePhrases (inputWords : List String) : List String :=
  let inputStr :=
    hyphenKeys.foldl (fun acc key => pyReplaceStr acc (spacedForm key) key)
      (joinWithSpace inputWords)
  splitWs inputStr

/-- The main loop of WordFormatter.format_dictation on an already checked
token list: parse each merged token, emit its formatted text, and thread
the state through update_state; the outputs are concatenated in order,
as the source joins its list of formatted words. -/
def formatDictation (tsap : Bool) (state : StateFlags) (inputWords : List String) :
    String × StateFlags :=
  (mergePhrases inputWords).foldl
    (fun acc w =>
      let word := parseInput w
      (acc.1 ++ applyFormatting tsap acc.2 word, updateState acc.2 word))
    ((""), state)

/-- The default initial formatter state set by the WordFormatter
constructor when no state is supplied. -/
def defaultFormatterState : StateFlags := { no_space_before := true }

/-- Input to format_dictation: Python passes either a bare string or a
sequence of token strings, and the source rejects the former with an
isinstance check before doing anything. -/
inductive DictationInput where
  | scalarStr : String → DictationInput
  | tokenSeq : List String → DictationInput
deriving DecidableEq, Repr

/-- WordFormatter.format_dictation with its argument check: a bare string
raises ValueError before the formatter state is touched, so the error
case carries the input state through unchanged; a token sequence is
formatted by the main loop and yields the updated state. -/
def formatDictationStateful (tsap : Bool) (state : StateFlags) :
    DictationInput → Except String String × StateFlags
  | DictationInput.scalarStr s =>
    (Except.error (("Argument input_words must be a sequence of words, but received a single string: ") ++ s), state)
  | DictationInput.tokenSeq ws =>
    let r := formatDictation tsap state ws
    (Except.ok r.1, r.2)

/-- One history frame pushed by type_dictated_words or
push_window_stack_frame: the number of characters emitted for the
utterance and the state snapshot after it. -/
abbrev Frame := Nat × StateFlags

/-- The per-window stacks dictionary of DictationModeGrammar, read total:
a handle with no entry reads as the empty stack, matching both the lazy
creation in _get_window_stack and the get-with-default reads. The top of
a stack is the head of the list here; the source appends and pops at the
end of a Python list, which is the same stack seen from the other side. -/
abbrev WindowStacks := Int → List Frame

/-- The initial word formatter state flags of DictationModeGrammar. -/
def initialStateFlags : StateFlags :=
  { no_space_before := true, cap_next := true, prev_ended_in_period := true }

/-- Push one frame on the stack of one handle, as
DictationModeGrammar.push_window_stack_frame does for the current
window. -/
def pushFrame (m : WindowStacks) (h : Int) (f : Frame) : WindowStacks :=
  fun h2 => if h2 = h then f :: m h2 else m h2

/-- The record operation of the history engine: the frame built in
type_dictated_words, (len(text), state snapshot), pushed on the stack of
the handle. -/
def recordFrame (m : WindowStacks) (h : Int) (text : String) (s : StateFlags) :
    WindowStacks :=
  pushFrame m h ((text.length), s)

/-- The resume state read by _set_formatting_state_flags: the snapshot of
the top frame of the stack of the handle, or the initial flags when the
stack is empty or was never created. The Python clone call is the
identity here. -/
def resumeState (init : StateFlags) (m : WindowStacks) (h : Int) : StateFlags :=
  match m h with
  | [] => init
  | f :: _ => f.2

/-- One scratch step, the body of the loop of do_scratch_n_times: pop the
top frame of the stack of the handle and report its character count; on
an empty stack the pop raises IndexError, reported here as none. -/
def scratch (m : WindowStacks) (h : Int) : Option (Nat × WindowStacks) :=
  match m h with
  | [] => none
  | f :: rest => some (f.1, fun h2 => if h2 = h then rest else m h2)

/-- DictationModeGrammar.do_scratch_n_times: up to n scratch steps on the
stack of the handle, stopping at the first empty pop; the list collects
the backspace counts issued, in order. -/
def doScratchNTimes (m : WindowStacks) (h : Int) : Nat → List Nat × WindowStacks
  | 0 => ([], m)
  | Nat.succ k =>
    match scratch m h with
    | none => ([], m)
    | some (cnt, m2) =>
      let r := doScratchNTimes m2 h k
      (cnt :: r.1, r.2)

/-- The mutable state of DictationModeGrammar that the history engine
operations touch: the per-window stacks, the current window handle and
the formatter state. The status number and its file, the exclusiveness
flag and the rule objects are external collaborators (spec section 6)
with no effect on stacks or formatting and are not modelled. -/
structure GrammarState where
  windowStacks : WindowStacks
  currentWindowHandle : Int
  formatterState : StateFlags

/-- DictationModeGrammar._set_formatting_state_flags: load the resume
state of the current window into the formatter. -/
def setFormattingStateFlags (g : GrammarState) : GrammarState :=
  { g with formatterState :=
      resumeState initialStateFlags g.windowStacks g.currentWindowHandle }

/-- DictationModeGrammar.type_dictated_words: set the formatter state for
the current window, format the words, and push the frame
(len(text), new state) on the current stack; the formatted text is
returned for the caller to type, Text(text).execute() being external
output. The grammar constructs its WordFormatter with the default
two_spaces_after_period = False. -/
def typeDictatedWords (g : GrammarState) (words : List String) :
    GrammarState × String :=
  let g1 := setFormattingStateFlags g
  let r := formatDictation false g1.formatterState words
  let g2 := { g1 with formatterState := r.2 }
  ({ g2 with windowStacks :=
      pushFrame g2.windowStacks g2.currentWindowHandle ((r.1.length), r.2) },
    r.1)

/-- DictationModeGrammar.push_window_stack_frame on the current window,
used by StateChangeRule with a zero-length frame. -/
def pushWindowStackFrame (g : GrammarState) (f : Frame) : GrammarState :=
  { g with windowStacks := pushFrame g.windowStacks g.currentWindowHandle f }

/-- DictationModeGrammar.do_scratch_n_times acting on the grammar state;
the backspace counts are returned, the key presses being external
output. -/
def doScratchNTimesG (g : GrammarState) (n : Nat) : GrammarState × List Nat :=
  let r := doScratchNTimes g.windowStacks g.currentWindowHandle n
  ({ g with windowStacks := r.2 }, r.1)

/-- DictationModeGrammar.clear_formatting_state: the option string
current empties the stack of the current window, the option string all
clears the whole dictionary, and any other option does nothing. -/
def clearFormattingState (g : GrammarState) (option : String) : GrammarState :=
  if option == ("current") then
    { g with windowStacks :=
        fun h2 => if h2 = g.currentWindowHandle then [] else g.windowStacks h2 }
  else if option == ("all") then
    { g with windowStacks := fun _ => [] }
  else g

/-- DictationModeGrammar._process_begin: switching the current window to
the given handle. The status file read that follows in the source only
toggles recognition modes, which are external collaborators. -/
def processBegin (g : GrammarState) (handle : Int) : GrammarState :=
  { g with currentWindowHandle := handle }

/-- Claim C3: formatting the tokens hello, period, world from the default
initial state (only no_space_before set) yields exactly hello. World, and
from a state that also has cap_next set yields exactly Hello. World, with
the two-spaces-after-period option off. -/
theorem format_hello_period_world :
    (formatDictation false ({ no_space_before := true })
        ([("hello"), ("period"), ("world")])).1 = ("hello. World") ∧
    (formatDictation false ({ no_space_before := true, cap_next := true })
        ([("hello"), ("period"), ("world")])).1 = ("Hello. World") := by
  constructor <;> decide

/-- Claim C10: on the empty token sequence, format_dictation returns the
empty string and a final state exactly equal to the input state, for
every input state and either setting of the two-spaces option. -/
theorem format_empty_input (tsap : Bool) (st : StateFlags) :
    formatDictation tsap st [] = ((""), st) := rfl

/-- Claim C4: the pre-processing of format_dictation joins the raw
tokens with single spaces and collapses the spaced surface form of every
hyphenated registry key back to the key, so the tokens at, sign merge
into the single registry token at-sign, and formatting them from the
default initial state yields exactly the text of the at sign. -/
theorem phrase_merge_at_sign :
    mergePhrases ([("at"), ("sign")]) = [("at-sign")] ∧
    (formatDictation false defaultFormatterState ([("at"), ("sign")])).1 = ("@") := by
  constructor <;> decide

/-- Claim C9: the phrase merge is plain substring replacement on the
space-joined utterance: the tokens format, signal are not registry keys
and carry no flags, yet the joined string contains the spaced form of
at-sign across the token boundary, so the merge fires and the utterance
becomes the single merged pass-through word format-signal instead of the
two original words separated by a space. -/
theorem phrase_merge_crosses_token_boundary :
    translationTable.lookup (("format")) = none ∧
    translationTable.lookup (("signal")) = none ∧
    propertyMap.lookup (("format")) = none ∧
    propertyMap.lookup (("signal")) = none ∧
    createWordFlags (("format")) = {} ∧
    createWordFlags (("signal")) = {} ∧
    mergePhrases ([("format"), ("signal")]) = [("format-signal")] ∧
    parseInput (("format-signal")) =
      { written := ("format-signal"), spoken := ("format-signal"), flags := {} } ∧
    (formatDictation false defaultFormatterState ([("format"), ("signal")])).1
      = ("format-signal") := by
  refine ⟨by decide, by decide, by decide, by decide, by decide, by decide, by decide, by decide, by decide⟩

/-- Claim C1, counterexample: with the previous word having ended in a
period, the spoken token period is parsed to the raw written form of a
period, its rendered written form is elided to the empty string, which
does not end in a period, yet update_state still sets
prev_ended_in_period, because the source tests the raw written form of
the word object rather than the rendered text. -/
theorem period_flag_ignores_elided_form :
    renderedWritten ({ prev_ended_in_period := true }) (parseInput (("period"))) = ("") ∧
    endsWithDot (renderedWritten ({ prev_ended_in_period := true }) (parseInput (("period"))))
      = false ∧
    endsWithDot (parseInput (("period"))).written = true ∧
    (updateState ({ prev_ended_in_period := true }) (parseInput (("period")))).prev_ended_in_period
      = true := by
  refine ⟨by decide, by decide, by decide, by decide⟩

/-- Claim C1, amended: for every previous state and every word, the state
produced by update_state has prev_ended_in_period equal to whether the
raw written form of the word, the registry substitution stored in the
word object, ends in a period; this can differ from the period test on
the rendered written form when the elision strips a leading period. -/
theorem period_flag_uses_raw_written (prev : StateFlags) (word : Word) :
    (updateState prev word).prev_ended_in_period
      = (word.written.data.getLast? == some chDot) := rfl

/-- Claim C5: called on a bare scalar string, format_dictation signals
the invalid-input error, formats nothing and leaves the formatter state
unchanged, for every state and every string; called on any token
sequence it never signals that condition. -/
theorem bare_string_input_rejected (tsap : Bool) (st : StateFlags) (s : String)
    (ws : List String) :
    (∃ e, (formatDictationStateful tsap st (DictationInput.scalarStr s)).1
        = Except.error e) ∧
    (formatDictationStateful tsap st (DictationInput.scalarStr s)).2 = st ∧
    (∃ r, (formatDictationStateful tsap st (DictationInput.tokenSeq ws)).1
        = Except.ok r) :=
  ⟨⟨_, rfl⟩, rfl, ⟨_, rfl⟩⟩

/-- Claim C2: for every context, text and state, one scratch immediately
after pushing the record frame (len(text), state) reports len(text)
characters to delete, restores the stacks to what they were before the
record, and hence restores the resume state of the context to the
snapshot that was current before the record; the single scratch through
do_scratch_n_times issues exactly that one backspace count. -/
theorem scratch_undoes_record (init : StateFlags) (m : WindowStacks) (h : Int)
    (t : String) (s : StateFlags) :
    ∃ m2, scratch (recordFrame m h t s) h = some ((t.length), m2) ∧
      doScratchNTimes (recordFrame m h t s) h 1 = ([(t.length)], m2) ∧
      m2 = m ∧
      resumeState init m2 h = resumeState init m h := by
  have hh : recordFrame m h t s h = ((t.length), s) :: m h := by
    simp [recordFrame, pushFrame]
  have hsc : scratch (recordFrame m h t s) h
      = some ((t.length), fun h2 => if h2 = h then m h else recordFrame m h t s h2) := by
    unfold scratch
    rw [hh]
  have meq : (fun h2 => if h2 = h then m h else recordFrame m h t s h2) = m := by
    funext h2
    by_cases hx : h2 = h
    · simp [hx]
    · simp [hx, recordFrame, pushFrame]
  refine ⟨_, hsc, ?_, meq, by rw [meq]⟩
  unfold doScratchNTimes
  rw [hsc]
  rfl

/-- Claim C6: on a context whose stack is empty, one scratch pop reports
the empty condition rather than crashing, and do_scratch_n_times for
every repeat count stops at that first empty pop, removing nothing and
leaving every stack exactly as it was. -/
theorem scratch_on_empty_stack (m : WindowStacks) (h : Int) (n : Nat)
    (hemp : m h = []) :
    scratch m h = none ∧ doScratchNTimes m h n = ([], m) := by
  have h1 : scratch m h = none := by
    unfold scratch
    rw [hemp]
  refine ⟨h1, ?_⟩
  cases n with
  | zero => rfl
  | succ k =>
    unfold doScratchNTimes
    rw [h1]

/-- Concrete check of scratch_on_empty_stack on a never-used context. -/
theorem scratch_on_empty_stack_check :
    scratch (fun _ => []) 0 = none ∧
    doScratchNTimes (fun _ => []) 0 2 = ([], fun _ => []) :=
  scratch_on_empty_stack (fun _ => []) 0 2 rfl

/-- Modelled from the words of claim C7: the claimed rendering under
cap_next, namely the written form with only its first space-separated
sub-word capitalized and every other character unchanged. -/
def capFirstSubwordSpec (w : String) : String :=
  String.mk (pyCapitalizeList (w.data.takeWhile (fun c => !(c == chSpace)))
    ++ w.data.dropWhile (fun c => !(c == chSpace)))

/-- Claim C7, counterexample: under a state with only cap_next set, the
two sub-word written form a B renders as A b, because Python
str.capitalize lowercases everything after the first character; the
claimed rendering, first sub-word capitalized and the rest unchanged,
would be A B, which differs. -/
theorem cap_next_rewrites_later_characters :
    renderedWritten ({ cap_next := true })
        ({ written := ("a B"), spoken := ("a B"), flags := {} }) = ("A b") ∧
    capFirstSubwordSpec (("a B")) = ("A B") ∧
    (("A b") : String) ≠ ("A B") := by
  refine ⟨by decide, by decide, by decide⟩

/-- Characterization of upper_first: it uppercases exactly the segment
before the first space and keeps everything from that space on
verbatim. -/
theorem upperFirstAux_eq (l : List Char) :
    upperFirstAux l = (l.takeWhile (fun c => !(c == chSpace))).map Char.toUpper
      ++ l.dropWhile (fun c => !(c == chSpace)) := by
  induction l with
  | nil => rfl
  | cons c cs ih =>
    cases hc : (c == chSpace) with
    | true =>
      simp [upperFirstAux, hc, List.takeWhile_cons, List.dropWhile_cons]
    | false =>
      simp [upperFirstAux, hc, List.takeWhile_cons, List.dropWhile_cons, ih]

/-- Characterization of lower_first, dual to upperFirstAux_eq. -/
theorem lowerFirstAux_eq (l : List Char) :
    lowerFirstAux l = (l.takeWhile (fun c => !(c == chSpace))).map Char.toLower
      ++ l.dropWhile (fun c => !(c == chSpace)) := by
  induction l with
  | nil => rfl
  | cons c cs ih =>
    cases hc : (c == chSpace) with
    | true =>
      simp [lowerFirstAux, hc, List.takeWhile_cons, List.dropWhile_cons]
    | false =>
      simp [lowerFirstAux, hc, List.takeWhile_cons, List.dropWhile_cons, ih]

/-- Claim C7, amended: with no mode flag active and no_format unset, the
cap_next and cap_next_force branches render the written form through
Python str.capitalize, uppercasing the first character and lowercasing
every remaining character, including later sub-words; the upper_next and
lower_next branches uppercase, respectively lowercase, exactly the first
space-separated sub-word and leave every character from the first space
on unchanged. -/
theorem case_rendering_amended (prev : StateFlags) (word : Word)
    (h1 : word.flags.no_format = false) (h2 : prev.cap_mode = false)
    (h3 : prev.upper_mode = false) (h4 : prev.lower_mode = false) :
    ((prev.cap_next = true ∨ prev.cap_next_force = true) →
      (applyCase prev word).data = pyCapitalizeList word.written.data) ∧
    (prev.cap_next = false → prev.cap_next_force = false → prev.upper_next = true →
      (applyCase prev word).data
        = (word.written.data.takeWhile (fun c => !(c == chSpace))).map Char.toUpper
          ++ word.written.data.dropWhile (fun c => !(c == chSpace))) ∧
    (prev.cap_next = false → prev.cap_next_force = false → prev.upper_next = false →
      prev.lower_next = true →
      (applyCase prev word).data
        = (word.written.data.takeWhile (fun c => !(c == chSpace))).map Char.toLower
          ++ word.written.data.dropWhile (fun c => !(c == chSpace))) := by
  refine ⟨?_, ?_, ?_⟩
  · intro hcap
    cases hcn : prev.cap_next with
    | true =>
      simp [applyCase, h1, h2, h3, h4, hcn, capitalizeFirst]
    | false =>
      have hforce : prev.cap_next_force = true := by
        cases hcap with
        | inl hx => rw [hx] at hcn; cases hcn
        | inr hx => exact hx
      simp [applyCase, h1, h2, h3, h4, hcn, hforce, capitalizeFirst]
  · intro hcn hforce hup
    simp [applyCase, h1, h2, h3, h4, hcn, hforce, hup, upperFirst, upperFirstAux_eq]
  · intro hcn hforce hup hlo
    simp [applyCase, h1, h2, h3, h4, hcn, hforce, hup, hlo, lowerFirst, lowerFirstAux_eq]

/-- Concrete check of case_rendering_amended on the cap_next branch. -/
theorem case_rendering_amended_check :
    (applyCase ({ cap_next := true })
        ({ written := ("hello World"), spoken := ("hello World"), flags := {} })).data
      = pyCapitalizeList (("hello World") : String).data :=
  (case_rendering_amended ({ cap_next := true })
    ({ written := ("hello World"), spoken := ("hello World"), flags := {} })
    rfl rfl rfl rfl).1 (Or.inl rfl)

/-- The resume state of a handle depends only on the stack of that
handle. -/
theorem resumeState_ext (init : StateFlags) (m1 m2 : WindowStacks) (h : Int)
    (hEq : m1 h = m2 h) : resumeState init m1 h = resumeState init m2 h := by
  unfold resumeState
  rw [hEq]

/-- Scratching any number of times on one handle never touches the stack
of another handle. -/
theorem doScratchNTimes_preserves_other (h h2 : Int) (hne : h2 ≠ h) :
    ∀ (n : Nat) (m : WindowStacks), (doScratchNTimes m h n).2 h2 = m h2 := by
  intro n
  induction n with
  | zero => intro m; rfl
  | succ k ih =>
    intro m
    unfold doScratchNTimes
    cases hsc : scratch m h with
    | none => rfl
    | some p =>
      obtain ⟨cnt, m2⟩ := p
      have hp : m2 h2 = m h2 := by
        unfold scratch at hsc
        cases hmh : m h with
        | nil =>
          rw [hmh] at hsc
          cases hsc
        | cons f rest =>
          rw [hmh] at hsc
          cases hsc
          simp [hne]
      simp only []
      rw [ih m2, hp]

/-- Claim C8: with the current window at handle A and a different handle
B, each operation addressed at A, namely type_dictated_words (record),
push_window_stack_frame (record of a state-only frame),
do_scratch_n_times (scratch and scratch-n), clear_formatting_state on the
current context (reset of A), and switching the current window to A,
leaves both the stack of B and the resume state of B exactly
unchanged. -/
theorem operations_isolate_other_contexts (g : GrammarState) (A B : Int)
    (hcur : g.currentWindowHandle = A) (hne : B ≠ A)
    (words : List String) (f : Frame) (n : Nat) :
    ((typeDictatedWords g words).1.windowStacks B = g.windowStacks B) ∧
    ((pushWindowStackFrame g f).windowStacks B = g.windowStacks B) ∧
    ((doScratchNTimesG g n).1.windowStacks B = g.windowStacks B) ∧
    ((clearFormattingState g (("current"))).windowStacks B = g.windowStacks B) ∧
    ((processBegin g A).windowStacks B = g.windowStacks B) ∧
    (resumeState initialStateFlags (typeDictatedWords g words).1.windowStacks B
      = resumeState initialStateFlags g.windowStacks B) ∧
    (resumeState initialStateFlags (pushWindowStackFrame g f).windowStacks B
      = resumeState initialStateFlags g.windowStacks B) ∧
    (resumeState initialStateFlags (doScratchNTimesG g n).1.windowStacks B
      = resumeState initialStateFlags g.windowStacks B) ∧
    (resumeState initialStateFlags (clearFormattingState g (("current"))).windowStacks B
      = resumeState initialStateFlags g.windowStacks B) ∧
    (resumeState initialStateFlags (processBegin g A).windowStacks B
      = resumeState initialStateFlags g.windowStacks B) := by
  have hBne : B ≠ g.currentWindowHandle := by rw [hcur]; exact hne
  have s1 : (typeDictatedWords g words).1.windowStacks B = g.windowStacks B := by
    simp [typeDictatedWords, setFormattingStateFlags, pushFrame, hBne]
  have s2 : (pushWindowStackFrame g f).windowStacks B = g.windowStacks B := by
    simp [pushWindowStackFrame, pushFrame, hBne]
  have s3 : (doScratchNTimesG g n).1.windowStacks B = g.windowStacks B := by
    simp only [doScratchNTimesG]
    exact doScratchNTimes_preserves_other g.currentWindowHandle B hBne n g.windowStacks
  have s4 : (clearFormattingState g (("current"))).windowStacks B = g.windowStacks B := by
    simp [clearFormattingState, hBne]
  have s5 : (processBegin g A).windowStacks B = g.windowStacks B := rfl
  exact ⟨s1, s2, s3, s4, s5,
    resumeState_ext _ _ _ _ s1, resumeState_ext _ _ _ _ s2,
    resumeState_ext _ _ _ _ s3, resumeState_ext _ _ _ _ s4,
    resumeState_ext _ _ _ _ s5⟩

/-- A concrete grammar state used to check the isolation theorem: empty
stacks, current window handle 1. -/
def gEx : GrammarState :=
  { windowStacks := fun _ => [], currentWindowHandle := 1,
    formatterState := initialStateFlags }

/-- Concrete check of operations_isolate_other_contexts at handles 1 and
2. -/
theorem operations_isolate_other_contexts_check :
    ((typeDictatedWords gEx [("hello")]).1.windowStacks 2 = gEx.windowStacks 2) ∧
    ((pushWindowStackFrame gEx ((0), initialStateFlags)).windowStacks 2
      = gEx.windowStacks 2) ∧
    ((doScratchNTimesG gEx 1).1.windowStacks 2 = gEx.windowStacks 2) ∧
    ((clearFormattingState gEx (("current"))).windowStacks 2 = gEx.windowStacks 2) ∧
    ((processBegin gEx 1).windowStacks 2 = gEx.windowStacks 2) ∧
    (resumeState initialStateFlags (typeDictatedWords gEx [("hello")]).1.windowStacks 2
      = resumeState initialStateFlags gEx.windowStacks 2) ∧
    (resumeState initialStateFlags
        (pushWindowStackFrame gEx ((0), initialStateFlags)).windowStacks 2
      = resumeState initialStateFlags gEx.windowStacks 2) ∧
    (resumeState initialStateFlags (doScratchNTimesG gEx 1).1.windowStacks 2
      = resumeState initialStateFlags gEx.windowStacks 2) ∧
    (resumeState initialStateFlags (clearFormattingState gEx (("current"))).windowStacks 2
      = resumeState initialStateFlags gEx.windowStacks 2) ∧
    (resumeState initialStateFlags (processBegin gEx 1).windowStacks 2
      = resumeState initialStateFlags gEx.windowStacks 2) :=
  operations_isolate_other_contexts gEx 1 2 rfl (by decide) [("hello")]
    ((0), initialStateFlags) 1
